import Mathlib

/-!
Verification of the intrinsic-triangulation demo (`src/main.cpp`).

The file shallowly embeds the program: the wrapper functions and CLI logic of
`main.cpp` are translated directly from the source; the parts of the engine
that live in the geometry-central library (the Delaunay flip loop, the
Delaunay refinement loop, `SurfacePoint::inSomeFace`, and
`CommonSubdivision::constructMesh`) are not part of this repository's sources,
so they are modelled from the specification, each marked
`Modelled from the spec:` in its doc comment.

Numbers are exact (`Nat`, `Int`, `ℚ`); C++ floating tolerances in the claims
become exact statements (a quantity that is exactly 1 is within 1e-9 of 1).
C++ functions that throw are embedded as `Except`-valued functions; functions
whose C++ counterpart never throws are embedded as total functions of plain
(non-`Except`) type.
-/

namespace IntrinsicDemo

/-! ### Backend selection (`main.cpp` lines 47-55 and 394-404) -/

/-- The two triangulation backends of the program
(`IntegerCoordinatesIntrinsicTriangulation` and
`SignpostIntrinsicTriangulation`). -/
inductive BackendKind where
  | integerCoordinates
  | signpost
deriving DecidableEq, Repr

/-- `resetTriangulation` (`main.cpp:47-55`): dispatches on the global
`backend` string, constructing the chosen backend, and throws
`std::runtime_error("unrecognized backed")` for any other string. -/
def resetTriangulation (backend : String) : Except String BackendKind :=
  if backend = "Integer Coordinates" then .ok .integerCoordinates
  else if backend = "Signposts" then .ok .signpost
  else .error ("unrecognized backed")

/-! ### The stats-file sentinel and the shape of `main`'s early phase
(`main.cpp` lines 377-392, 394-404, 407, 439) -/

/-- The sentinel string `:'(` written to the stats file before any real work
(`main.cpp:387`). -/
def statsSentinel : String := ":\x27("

/-- Observable steps that `main` performs between option processing and the
triangulation work; used to state ordering and early-exit properties. -/
inductive MainStep where
  /-- open the stats file with `std::ios::trunc` and write `content`. -/
  | truncWrite (content : String)
  /-- print a message to stdout and keep going. -/
  | printMsg (msg : String)
  /-- `return EXIT_FAILURE`. No later step is ever executed after this. -/
  | exitFailure
  /-- `readManifoldSurfaceMesh(...)` (`main.cpp:407`). -/
  | loadMesh
  /-- `resetTriangulation()` (`main.cpp:439`), the first triangulation work. -/
  | resetTri
deriving DecidableEq, Repr

/-- The stats-sentinel block (`main.cpp:377-392`): when `logStats` is set, the
file `outputPrefixStr ++ "stats.tsv"` is opened with truncation; on success
the sentinel is written, on failure only a message is printed and execution
continues. -/
def sentinelSteps (logStats openOk : Bool) (outputPrefixStr : String) :
    List MainStep :=
  if logStats then
    if openOk then [.truncWrite statsSentinel]
    else [.printMsg ("Error: failed to write to " ++
      (outputPrefixStr ++ "stats.tsv"))]
  else []

/-- The error message printed for an unrecognized `--backend` value
(`main.cpp:400-401`). -/
def backendErrMsg (s : String) : String :=
  "Error: unrecognized backend \x27" ++ s ++
    "\x27. Please use \x27signpost\x27 or \x27integer\x27"

/-- The steps `main` performs from the `logStats` sentinel block through the
`--backend` check, the mesh load and the triangulation construction
(`main.cpp:377-439`): the sentinel block runs first, then an unrecognized
`--backend` value exits with failure before the mesh is loaded; otherwise the
mesh is loaded and `resetTriangulation()` is reached. -/
def mainPrologue (logStats openOk : Bool) (backendFlag : Option String)
    (outputPrefixStr : String) : List MainStep :=
  sentinelSteps logStats openOk outputPrefixStr ++
  match backendFlag with
  | none => [.loadMesh, .resetTri]
  | some s =>
    if s = "signpost" ∨ s = "integer" then [.loadMesh, .resetTri]
    else [.printMsg (backendErrMsg s), .exitFailure]

/-! ### `writeLog` (`main.cpp` lines 224-230) -/

/-- `writeLog` (`main.cpp:224-230`): builds the log path, asks the logger to
write it (`writeOk` abstracts `logger.writeLog`), and throws
`std::runtime_error("failed to write logs to " + logFile)` on failure. -/
def writeLog (writeOk : String → Bool) (outputPrefixStr : String) :
    Except String Unit :=
  let logFile := outputPrefixStr ++ "stats.tsv"
  if writeOk logFile then .ok () else
    .error ("failed to write logs to " ++ logFile)

/-! ### The Delaunay flip loop and its wrapper
(`main.cpp` lines 57-65; spec sections 4.2 and 8) -/

/-- Modelled from the spec: the state and primitive operations of the
intrinsic triangulation engine used by `flipToDelaunay`
(`IntrinsicTriangulation` is library code, not in this repository's sources).
A state `σ` carries the intrinsic mesh; `isDelaunay` is the local Delaunay
test over all edges, and `flipOnce` pops a candidate edge from the worklist
and performs one flip attempt (spec section 4.2). -/
structure FlipEngine (σ : Type) where
  isDelaunay : σ → Bool
  flipOnce : σ → σ

/-- Modelled from the spec: the flip loop of `flipToDelaunay`, with the cap
on total flip attempts required by spec section 4.2 ("the implementation must
cap total flip attempts"). Returns the final state together with the number
of flip attempts actually performed; it stops as soon as the triangulation is
Delaunay or the cap is exhausted. -/
def flipLoop {σ : Type} (E : FlipEngine σ) : Nat → σ → σ × Nat
  | 0, s => (s, 0)
  | fuel + 1, s =>
    if E.isDelaunay s then (s, 0)
    else
      let r := flipLoop E fuel (E.flipOnce s)
      (r.1, r.2 + 1)

/-- Modelled from the spec: `flipToDelaunay` runs the flip loop with the
attempt cap. -/
def flipToDelaunay {σ : Type} (E : FlipEngine σ) (cap : Nat) (s : σ) :
    σ × Nat :=
  flipLoop E cap s

/-- The observable outcome of the wrapper `flipDelaunayTriangulation`:
final state, number of flips performed, and whether the non-convergence
warning was issued. The type is a plain structure, not `Except`: the wrapper
never throws. -/
structure FlipRunResult (σ : Type) where
  state : σ
  flips : Nat
  warned : Bool
deriving DecidableEq, Repr

/-- `flipDelaunayTriangulation` (`main.cpp:57-65`): calls
`intTri->flipToDelaunay()` and then, when `isDelaunay()` is false, issues
`polyscope::warning` — it never throws. -/
def flipDelaunayTriangulation {σ : Type} (E : FlipEngine σ) (cap : Nat)
    (s : σ) : FlipRunResult σ :=
  let r := flipToDelaunay E cap s
  { state := r.1, flips := r.2, warned := !E.isDelaunay r.1 }

/-! ### The Delaunay refinement loop and its wrapper
(`main.cpp` lines 67-81; spec section 4.3) -/

/-- `INVALID_IND`, geometry-central's sentinel
`std::numeric_limits<size_t>::max()`, passed as `maxInsertions` to mean
"no insertion cap". -/
def INVALID_IND : Nat := 2 ^ 64 - 1

/-- Modelled from the spec: the primitive operations of the Delaunay refiner
(spec section 4.3). `hasBadFace` answers whether the bad-face set is
non-empty; `insertOne` picks a bad face, inserts its circumcenter (or the
off-center fallback) as a new vertex, restores Delaunay locally and updates
the bad-face set; `isDelaunay` is the post-condition query. -/
structure RefineEngine (σ : Type) where
  hasBadFace : σ → Bool
  insertOne : σ → σ
  isDelaunay : σ → Bool

/-- Modelled from the spec: the refinement loop of `delaunayRefine`
(spec section 4.3): "Stop when the bad-face set is empty, or when the
insertion count reaches `K` (if bounded)". A `maxInsertions` of `INVALID_IND`
means unbounded. `fuel` bounds the recursion in the embedding; the real
loop's termination in the unbounded case is the geometric termination
argument of Chew's algorithm, outside the loop itself. `n` is the number of
insertions performed so far. -/
def refineLoop {σ : Type} (E : RefineEngine σ) (maxInsertions : Nat) :
    Nat → σ → Nat → σ × Nat
  | 0, s, n => (s, n)
  | fuel + 1, s, n =>
    if E.hasBadFace s = true ∧ (maxInsertions = INVALID_IND ∨ n < maxInsertions)
    then refineLoop E maxInsertions fuel (E.insertOne s) (n + 1)
    else (s, n)

/-- Modelled from the spec: `delaunayRefine` runs the refinement loop
starting from zero insertions. Returns the final state and the number of
insertions performed. -/
def delaunayRefine {σ : Type} (E : RefineEngine σ) (maxInsertions fuel : Nat)
    (s : σ) : σ × Nat :=
  refineLoop E maxInsertions fuel s 0

/-- The observable outcome of the wrapper `refineDelaunayTriangulation`;
a plain structure, not `Except`: the wrapper never throws. -/
structure RefineRunResult (σ : Type) where
  state : σ
  insertions : Nat
  warned : Bool
deriving DecidableEq, Repr

/-- The argument actually passed as `maxInsertions`
(`main.cpp:70`): `useInsertionsMax ? insertionsMax : INVALID_IND`. -/
def refineMaxInsertionsArg (useInsertionsMax : Bool) (insertionsMax : Nat) :
    Nat :=
  if useInsertionsMax then insertionsMax else INVALID_IND

/-- `refineDelaunayTriangulation` (`main.cpp:67-81`): computes the effective
`maxInsertions`, calls `intTri->delaunayRefine(...)`, and when `isDelaunay()`
is false afterwards issues `polyscope::warning` — it never throws. -/
def refineDelaunayTriangulation {σ : Type} (E : RefineEngine σ)
    (useInsertionsMax : Bool) (insertionsMax fuel : Nat) (s : σ) :
    RefineRunResult σ :=
  let r := delaunayRefine E (refineMaxInsertionsArg useInsertionsMax
    insertionsMax) fuel s
  { state := r.1, insertions := r.2, warned := !E.isDelaunay r.1 }

/-! ### Derivation of the insertion cap from the CLI value
(`main.cpp` lines 373-374, 414-417, 70) -/

/-- `main.cpp:415-417`: a negative CLI value is scaled by the vertex count
(`insertionsMax *= -mesh->nVertices()`); the result is assumed to stay in
`int` range (C++ signed overflow is undefined; theorems about this function
carry the corresponding range hypothesis). -/
def scaleInsertionsMax (v : Int) (nVertices : Nat) : Int :=
  if v < 0 then v * (-(nVertices : Int)) else v

/-- The cap value that reaches `delaunayRefine`, as derived by `main`:
`useInsertionsMax = insertionsMax != 0` is decided on the raw CLI value
(`main.cpp:374`), the value is then scaled when negative (`main.cpp:415-417`),
and `refineDelaunayTriangulation` converts it to `size_t`, substituting
`INVALID_IND` when `useInsertionsMax` is false (`main.cpp:70`). -/
def effectiveMaxInsertions (v : Int) (nVertices : Nat) : Nat :=
  refineMaxInsertionsArg (v != 0) (scaleInsertionsMax v nVertices).toNat

/-! ### Surface Points and `inSomeFace`
(spec sections 2, 3; consumed by `main.cpp` lines 186-203) -/

/-- Modelled from the spec: a Surface Point — a tagged location on the input
surface: a vertex, a point on an edge (one barycentric coordinate `tEdge`),
or a point in a face (barycentric `faceCoords`). Coordinates are exact
rationals in the embedding. -/
inductive SurfacePoint where
  | vertex (v : Nat)
  | edge (e : Nat) (tEdge : ℚ)
  | face (f : Nat) (faceCoords : Fin 3 → ℚ)

/-- Modelled from the spec: the connectivity queries `inSomeFace` needs from
the input mesh: for a vertex, some incident face and the corner the vertex
occupies in it; for an edge, some incident face and the corner at which the
edge starts (the edge runs from that corner to the next one in the face's
cyclic vertex order). `faceVerts` lists each face's three vertex indices. -/
structure MeshConn where
  vertexCorner : Nat → Nat × Fin 3
  edgeSide : Nat → Nat × Fin 3
  faceVerts : Nat → Fin 3 → Nat

/-- Barycentric coordinates of the corner `i` of a face: 1 at `i`, 0
elsewhere. -/
def cornerCoords (i : Fin 3) : Fin 3 → ℚ :=
  fun j => if j = i then 1 else 0

/-- Barycentric coordinates, in a face, of the point at parameter `t` along
the edge that runs from corner `i` to corner `i + 1`. -/
def edgePointCoords (i : Fin 3) (t : ℚ) : Fin 3 → ℚ :=
  fun j => if j = i then 1 - t else if j = i + 1 then t else 0

/-- Modelled from the spec: the face representative chosen by
`SurfacePoint::inSomeFace` — the containing face and the barycentric
coordinates of the point in it. A Face point is already its own
representative and is returned unchanged; a Vertex point becomes the corner
of some incident face; an Edge point at parameter `t` becomes the point at
`t` along the corresponding side of some incident face (spec section 3:
normalization between Face and Edge representations preserves the
interpolated position). -/
def SurfacePoint.inSomeFaceData (M : MeshConn) :
    SurfacePoint → Nat × (Fin 3 → ℚ)
  | .vertex v => ((M.vertexCorner v).1, cornerCoords (M.vertexCorner v).2)
  | .edge e t => ((M.edgeSide e).1, edgePointCoords (M.edgeSide e).2 t)
  | .face f c => (f, c)

/-- Modelled from the spec: `SurfacePoint::inSomeFace`, returning a
Face-type Surface Point. -/
def SurfacePoint.inSomeFace (M : MeshConn) (p : SurfacePoint) : SurfacePoint :=
  .face (p.inSomeFaceData M).1 (p.inSomeFaceData M).2

/-- The Surface Point invariant of spec section 3: barycentric coordinates
are non-negative and sum to 1 (a Vertex point has no free coordinate; an
Edge point's implicit pair is `(1 - t, t)`). -/
def SurfacePoint.validCoords : SurfacePoint → Prop
  | .vertex _ => True
  | .edge _ t => 0 ≤ t ∧ t ≤ 1
  | .face _ c => (∀ j, 0 ≤ c j) ∧ c 0 + c 1 + c 2 = 1

/-! ### One row of the vertex interpolation matrix
(`main.cpp` lines 177-209, `outputInterpolatMat`) -/

/-- The triplets contributed by one intrinsic vertex in `outputInterpolatMat`
(`main.cpp:186-203`): the vertex's location is normalized with
`inSomeFace()`, then for each corner `j` of the containing face the weight
`faceCoords[j]` is emitted against the input vertex at that corner whenever
it is strictly positive. Each triplet is `(row, column, weight)` with
`row = iV` and `column = vertexIndices` applied to the corner's vertex. -/
def interpRowTriplets (M : MeshConn) (vertexIndices : Nat → Nat) (iV : Nat)
    (p : SurfacePoint) : List (Nat × Nat × ℚ) :=
  let d := p.inSomeFaceData M
  ([0, 1, 2] : List (Fin 3)).filterMap fun j =>
    if 0 < d.2 j then some (iV, vertexIndices (M.faceVerts d.1 j), d.2 j)
    else none

/-- The sum of the weights of a row's triplets. -/
def interpRowSum (ts : List (Nat × Nat × ℚ)) : ℚ :=
  (ts.map fun t => t.2.2).sum

/-- The point is a Face-type Surface Point whose barycentric coordinates are
all strictly positive — exactly the condition under which an all-positive
Face representative exists (spec section 3: a Vertex or Edge point has a
zero coordinate in every containing face). -/
def SurfacePoint.allPosFace : SurfacePoint → Prop
  | .face _ c => 0 < c 0 ∧ 0 < c 1 ∧ 0 < c 2
  | _ => False

/-! ### The common subdivision and `constructMesh`
(spec sections 4.4, 9; `main.cpp` lines 83-101, 232-240, 483-505) -/

/-- Modelled from the spec: the `CommonSubdivision` cache. `core` stands for
the intrinsic triangulation state the overlay is derived from (bumped on
every flip or insertion, which is what invalidates the cache); `mesh` is the
lazily materialized overlay topology, `none` until built — `main.cpp:234`
tests exactly this (`if (!cs.mesh) cs.constructMesh();`). The overlay
topology itself is abstracted by the type `ω`. -/
structure CommonSubdivision (σ ω : Type) where
  core : σ
  mesh : Option ω

/-- Modelled from the spec: `CommonSubdivision::constructMesh()`
"materializes the overlay topology; idempotent if already built and not
invalidated" (spec section 4.4), realized as rebuild-on-access over a lazy
optional value (spec section 9): when `mesh` is already built it is left
unchanged, otherwise it is computed from the core by `build`. -/
def constructMesh {σ ω : Type} (build : σ → ω)
    (cs : CommonSubdivision σ ω) : CommonSubdivision σ ω :=
  match cs.mesh with
  | some _ => cs
  | none => { cs with mesh := some (build cs.core) }

/-! ### Small concrete instances used by witnesses -/

/-- A concrete refinement engine on `Nat` used for witness instantiation:
the state counts the remaining bad faces, one insertion fixes one of them,
and the triangulation is Delaunay exactly when none remain. -/
def refineEngineEx : RefineEngine Nat :=
  ⟨fun n => !(n == 0), fun n => n - 1, fun n => n == 0⟩

/-- Concrete mesh connectivity used for witness instantiation: every vertex
and edge reports face 0 at corner 0, and face `f` has vertices
`3 f, 3 f + 1, 3 f + 2`. -/
def meshConnEx : MeshConn :=
  ⟨fun _ => (0, 0), fun _ => (0, 0), fun f j => 3 * f + j.val⟩

/-- Concrete all-positive barycentric coordinates used for witness
instantiation. -/
def faceCoordsEx : Fin 3 → ℚ :=
  fun j => if j = 0 then 1 / 2 else if j = 1 then 1 / 3 else 1 / 6

/-! ## Helper lemmas -/

/-- The flip loop either reaches a Delaunay state or performs exactly `cap`
flip attempts. -/
theorem flipLoop_spec {σ : Type} (E : FlipEngine σ) (cap : Nat) (s : σ) :
    E.isDelaunay (flipLoop E cap s).1 = true ∨ (flipLoop E cap s).2 = cap := by
  induction cap generalizing s with
  | zero => right; rfl
  | succ n ih =>
    by_cases h : E.isDelaunay s = true
    · left; simp [flipLoop, h]
    · rcases ih (E.flipOnce s) with h1 | h1
      · left; simpa [flipLoop, h] using h1
      · right; simp [flipLoop, h, h1]

/-- Corner barycentric coordinates are non-negative. -/
theorem cornerCoords_nonneg (i j : Fin 3) : 0 ≤ cornerCoords i j := by
  unfold cornerCoords
  split <;> norm_num

/-- Corner barycentric coordinates sum to 1. -/
theorem cornerCoords_sum (i : Fin 3) :
    cornerCoords i 0 + cornerCoords i 1 + cornerCoords i 2 = 1 := by
  fin_cases i <;> simp [cornerCoords, Fin.ext_iff]

/-- Edge-point barycentric coordinates are non-negative for a parameter in
`[0, 1]`. -/
theorem edgePointCoords_nonneg (i j : Fin 3) (t : ℚ) (h0 : 0 ≤ t)
    (h1 : t ≤ 1) : 0 ≤ edgePointCoords i t j := by
  unfold edgePointCoords
  split
  · linarith
  · split
    · exact h0
    · norm_num

/-- Edge-point barycentric coordinates sum to 1. -/
theorem edgePointCoords_sum (i : Fin 3) (t : ℚ) :
    edgePointCoords i t 0 + edgePointCoords i t 1 + edgePointCoords i t 2
      = 1 := by
  fin_cases i <;> simp [edgePointCoords, Fin.ext_iff, Fin.val_add]

/-- The face representative chosen by `inSomeFace` for a valid Surface Point
has non-negative barycentric coordinates summing to 1. -/
theorem inSomeFaceData_valid (M : MeshConn) (p : SurfacePoint)
    (hp : p.validCoords) :
    (∀ j, 0 ≤ (p.inSomeFaceData M).2 j) ∧
    (p.inSomeFaceData M).2 0 + (p.inSomeFaceData M).2 1 +
      (p.inSomeFaceData M).2 2 = 1 := by
  cases p with
  | vertex v =>
    exact ⟨fun j => cornerCoords_nonneg _ j, cornerCoords_sum _⟩
  | edge e t =>
    obtain ⟨h0, h1⟩ := hp
    exact ⟨fun j => edgePointCoords_nonneg _ j t h0 h1,
      edgePointCoords_sum _ t⟩
  | face f c => exact hp

/-- The sum of the strictly positive entries of a non-negative triple
summing to 1 is 1, stated for the triplet lists built by
`interpRowTriplets`. -/
theorem posFilterSum (c : Fin 3 → ℚ) (g : Fin 3 → Nat × Nat)
    (hnn : ∀ j, 0 ≤ c j) (hsum : c 0 + c 1 + c 2 = 1) :
    interpRowSum (([0, 1, 2] : List (Fin 3)).filterMap fun j =>
      if 0 < c j then some ((g j).1, (g j).2, c j) else none) = 1 := by
  by_cases h0 : 0 < c 0 <;> by_cases h1 : 0 < c 1 <;>
    by_cases h2 : 0 < c 2 <;>
      simp [h0, h1, h2, interpRowSum] <;>
      linarith [hnn 0, hnn 1, hnn 2]

/-- The concrete example coordinates satisfy the Surface Point invariant. -/
theorem faceCoordsEx_valid : (SurfacePoint.face 1 faceCoordsEx).validCoords := by
  constructor
  · intro j
    fin_cases j <;> norm_num [faceCoordsEx, Fin.ext_iff]
  · norm_num [faceCoordsEx, Fin.ext_iff]

/-- The concrete example coordinates are all strictly positive. -/
theorem faceCoordsEx_allPos :
    (SurfacePoint.face 1 faceCoordsEx).allPosFace := by
  refine ⟨?_, ?_, ?_⟩ <;> norm_num [faceCoordsEx, Fin.ext_iff]

/-- The refinement loop with a bounded cap `K` and enough fuel stops exactly
when the bad-face set is empty or the insertion count reaches `K`. -/
theorem refineLoop_stops {σ : Type} (E : RefineEngine σ) (K : Nat)
    (hK : K ≠ INVALID_IND) (fuel : Nat) :
    ∀ (s : σ) (n : Nat), n ≤ K → K ≤ n + fuel →
      E.hasBadFace (refineLoop E K fuel s n).1 = false ∨
        (refineLoop E K fuel s n).2 = K := by
  induction fuel with
  | zero =>
    intro s n h1 h2
    right
    show n = K
    omega
  | succ m ih =>
    intro s n h1 h2
    rw [refineLoop]
    split
    · rename_i hcond
      have hlt : n < K := by
        rcases hcond.2 with h | h
        · exact absurd h hK
        · exact h
      exact ih (E.insertOne s) (n + 1) hlt (by omega)
    · rename_i hcond
      rw [not_and_or, not_or] at hcond
      rcases hcond with h | h
      · left
        simpa using h
      · right
        have := h.2
        show n = K
        omega

/-! ## Claims -/

/-- Claim C1: for every input, after `flipDelaunayTriangulation` returns,
either the triangulation is Delaunay or the number of flip attempts equals
the cap; non-convergence is surfaced only through the warning flag (set
exactly when `isDelaunay()` is false afterwards), never as a thrown error
(the wrapper's type is total, not `Except`). -/
theorem flip_postcondition {σ : Type} (E : FlipEngine σ) (cap : Nat) (s : σ) :
    (E.isDelaunay (flipDelaunayTriangulation E cap s).state = true ∨
      (flipDelaunayTriangulation E cap s).flips = cap) ∧
    (flipDelaunayTriangulation E cap s).warned =
      !E.isDelaunay (flipDelaunayTriangulation E cap s).state :=
  ⟨flipLoop_spec E cap s, rfl⟩

/-- Claim C6: `flipToDelaunay` is idempotent — when the triangulation is
already Delaunay, the wrapper performs zero flips, leaves the state
unchanged, and issues no warning. -/
theorem flip_idempotent {σ : Type} (E : FlipEngine σ) (cap : Nat) (s : σ)
    (h : E.isDelaunay s = true) :
    flipDelaunayTriangulation E cap s = ⟨s, 0, false⟩ := by
  cases cap <;>
    simp [flipDelaunayTriangulation, flipToDelaunay, flipLoop, h]

/-- Witness for claim C6 at a concrete engine and state. -/
theorem flip_idempotent_witness :
    flipDelaunayTriangulation ⟨fun n => n == 0, fun n => n - 1⟩ 5 (0 : Nat) =
      ⟨0, 0, false⟩ :=
  flip_idempotent ⟨fun n => n == 0, fun n => n - 1⟩ 5 0 (by decide)

/-- Claim C5: `constructMesh()` is idempotent: when the subdivision mesh is
already built (and the core unchanged), a further call leaves the
subdivision unchanged, and in general a second call after a first is a
no-op on the overlay. -/
theorem constructMesh_idempotent {σ ω : Type} (build : σ → ω)
    (cs : CommonSubdivision σ ω) :
    (∀ m, cs.mesh = some m → constructMesh build cs = cs) ∧
    constructMesh build (constructMesh build cs) = constructMesh build cs := by
  obtain ⟨core, mesh⟩ := cs
  cases mesh with
  | none => exact ⟨fun m hm => by simp at hm, rfl⟩
  | some m0 => exact ⟨fun m _ => rfl, rfl⟩

/-- Witness for claim C5 at a concrete already-built subdivision. -/
theorem constructMesh_idempotent_witness :
    constructMesh (id : Nat → Nat) ⟨0, some 7⟩ =
      (⟨0, some 7⟩ : CommonSubdivision Nat Nat) :=
  (constructMesh_idempotent id ⟨0, some 7⟩).1 7 rfl

/-- Claim C7: an unrecognized backend identifier is fatal at configuration
time: `resetTriangulation` throws for any string other than the two
recognized ones, and an unrecognized `--backend` CLI value makes `main`
return `EXIT_FAILURE` before the mesh is loaded (the prologue trace contains
`exitFailure` and reaches neither `loadMesh` nor `resetTri`). -/
theorem backend_selection_fatal (b s pre : String) (logStats openOk : Bool)
    (hb1 : b ≠ "Integer Coordinates") (hb2 : b ≠ "Signposts")
    (hs1 : s ≠ "signpost") (hs2 : s ≠ "integer") :
    resetTriangulation b = .error ("unrecognized backed") ∧
    MainStep.exitFailure ∈ mainPrologue logStats openOk (some s) pre ∧
    MainStep.loadMesh ∉ mainPrologue logStats openOk (some s) pre ∧
    MainStep.resetTri ∉ mainPrologue logStats openOk (some s) pre := by
  refine ⟨by simp [resetTriangulation, hb1, hb2], ?_, ?_, ?_⟩ <;>
    cases logStats <;> cases openOk <;>
      simp [mainPrologue, sentinelSteps, hs1, hs2]

/-- Witness for claim C7 at the concrete backend string `foo`. -/
theorem backend_selection_fatal_witness :
    resetTriangulation ("foo") = .error ("unrecognized backed") ∧
    MainStep.exitFailure ∈ mainPrologue true true (some ("foo"))
      ("intrinsic_") ∧
    MainStep.loadMesh ∉ mainPrologue true true (some ("foo"))
      ("intrinsic_") ∧
    MainStep.resetTri ∉ mainPrologue true true (some ("foo"))
      ("intrinsic_") :=
  backend_selection_fatal "foo" "foo" "intrinsic_" true true
    (by decide) (by decide) (by decide) (by decide)

/-- Claim C8: a failed log write is fatal and carries the target path:
whenever the logger's write reports failure, `writeLog` throws an error
whose message ends in the log file path. -/
theorem writeLog_failure_throws (writeOk : String → Bool) (pre : String)
    (h : writeOk (pre ++ "stats.tsv") = false) :
    writeLog writeOk pre =
      .error ("failed to write logs to " ++ (pre ++ "stats.tsv")) ∧
    ∃ msg, writeLog writeOk pre = .error (msg ++ (pre ++ "stats.tsv")) := by
  constructor
  · simp [writeLog, h]
  · exact ⟨"failed to write logs to ", by simp [writeLog, h]⟩

/-- Witness for claim C8 at a concrete always-failing writer. -/
theorem writeLog_failure_throws_witness :
    writeLog (fun _ => false) ("intrinsic_") =
      .error ("failed to write logs to " ++
        (("intrinsic_" : String) ++ "stats.tsv")) :=
  (writeLog_failure_throws (fun _ => false) "intrinsic_" rfl).1

/-- Claim C10: with `logStats` set, `main` first truncates the stats file
and writes the sentinel before any triangulation work (the trace starts with
the sentinel write and only then reaches `loadMesh` and `resetTri`); when
that initial open fails, only a message is printed and execution continues
to `loadMesh`/`resetTri` with no failure exit — in contrast, the later real
log writes via `writeLog` throw on failure. -/
theorem sentinel_write_nonfatal (pre : String) (flag : Option String)
    (writeOk : String → Bool)
    (hflag : flag = none ∨ flag = some ("signpost") ∨ flag = some ("integer"))
    (hw : writeOk (pre ++ "stats.tsv") = false) :
    mainPrologue true true flag pre =
      [.truncWrite statsSentinel, .loadMesh, .resetTri] ∧
    mainPrologue true false flag pre =
      [.printMsg ("Error: failed to write to " ++ (pre ++ "stats.tsv")),
        .loadMesh, .resetTri] ∧
    writeLog writeOk pre =
      .error ("failed to write logs to " ++ (pre ++ "stats.tsv")) := by
  refine ⟨?_, ?_, by simp [writeLog, hw]⟩ <;>
    rcases hflag with h | h | h <;> subst h <;>
      simp [mainPrologue, sentinelSteps]

/-- Witness for claim C10 with no backend flag and an always-failing log
writer. -/
theorem sentinel_write_nonfatal_witness :
    mainPrologue true true none ("intrinsic_") =
      [.truncWrite statsSentinel, .loadMesh, .resetTri] ∧
    mainPrologue true false none ("intrinsic_") =
      [.printMsg ("Error: failed to write to " ++
        (("intrinsic_" : String) ++ "stats.tsv")),
        .loadMesh, .resetTri] ∧
    writeLog (fun _ => false) ("intrinsic_") =
      .error ("failed to write logs to " ++
        (("intrinsic_" : String) ++ "stats.tsv")) :=
  sentinel_write_nonfatal "intrinsic_" none (fun _ => false)
    (Or.inl rfl) rfl

/-- Claim C2: with a bounded cap `K`, `delaunayRefine` stops with the
bad-face set empty or the insertion count equal to `K`; the CLI value 0
disables the cap (`INVALID_IND` is passed, and with bad faces present the
unbounded run performs insertions rather than stopping at zero); reaching
the cap is reported only through the wrapper's warning flag (set exactly
when `isDelaunay()` is false afterwards), never as a thrown error (the
wrapper's type is total, not `Except`). -/
theorem refine_cap_behavior {σ : Type} (E : RefineEngine σ) (K fuel m : Nat)
    (s : σ) (u : Bool) (hK : K ≠ INVALID_IND)
    (hbad : E.hasBadFace s = true) :
    (E.hasBadFace (delaunayRefine E K K s).1 = false ∨
      (delaunayRefine E K K s).2 = K) ∧
    refineMaxInsertionsArg false 0 = INVALID_IND ∧
    (delaunayRefine E INVALID_IND 1 s).2 = 1 ∧
    (refineDelaunayTriangulation E u m fuel s).warned =
      !E.isDelaunay (refineDelaunayTriangulation E u m fuel s).state := by
  refine ⟨refineLoop_stops E K hK K s 0 (by omega) (by omega), rfl, ?_, rfl⟩
  simp [delaunayRefine, refineLoop, hbad]

/-- Witness for claim C2 at the concrete engine `refineEngineEx`, cap 3,
starting from two bad faces. -/
theorem refine_cap_behavior_witness :
    (refineEngineEx.hasBadFace (delaunayRefine refineEngineEx 3 3 2).1
        = false ∨
      (delaunayRefine refineEngineEx 3 3 2).2 = 3) ∧
    refineMaxInsertionsArg false 0 = INVALID_IND ∧
    (delaunayRefine refineEngineEx INVALID_IND 1 2).2 = 1 ∧
    (refineDelaunayTriangulation refineEngineEx true 4 5 2).warned =
      !refineEngineEx.isDelaunay
        (refineDelaunayTriangulation refineEngineEx true 4 5 2).state :=
  refine_cap_behavior refineEngineEx 3 5 4 2 true (by decide) (by decide)

/-- Claim C9: the effective insertion cap is derived from the CLI value `v`
as follows: a negative `v` yields `(-v) * nVertices` (so the default `-10`
gives `10 * nVertices`), `v = 0` disables the cap (`INVALID_IND` is passed),
and a positive `v` is used as-is. -/
theorem insertion_cap_derivation (v : Int) (nV : Nat) :
    (v < 0 → effectiveMaxInsertions v nV = (-v).toNat * nV) ∧
    (v = 0 → effectiveMaxInsertions v nV = INVALID_IND) ∧
    (0 < v → effectiveMaxInsertions v nV = v.toNat) ∧
    effectiveMaxInsertions (-10) nV = 10 * nV := by
  have key : ∀ w : Int, w < 0 →
      effectiveMaxInsertions w nV = (-w).toNat * nV := by
    intro w hw
    have hne : (w != 0) = true := bne_iff_ne.mpr (by omega)
    simp only [effectiveMaxInsertions, refineMaxInsertionsArg, hne,
      scaleInsertionsMax, if_pos hw, if_true]
    have ha : ((-w).toNat : Int) = -w := Int.toNat_of_nonneg (by omega)
    have h2 : w * -(nV : Int) = (((-w).toNat * nV : Nat) : Int) := by
      push_cast [ha]
      ring
    rw [h2, Int.toNat_natCast]
  refine ⟨fun hv => key v hv, ?_, ?_, ?_⟩
  · rintro rfl
    simp [effectiveMaxInsertions, refineMaxInsertionsArg]
  · intro hv
    have hne : (v != 0) = true := bne_iff_ne.mpr (by omega)
    simp only [effectiveMaxInsertions, refineMaxInsertionsArg, hne,
      scaleInsertionsMax, if_neg (by omega : ¬ v < 0), if_true]
  · rw [key (-10) (by norm_num)]
    norm_num
    left
    decide

/-- Witness for claim C9 at the concrete values `-10`, `0`, and `5` with 7
input vertices. -/
theorem insertion_cap_derivation_witness :
    effectiveMaxInsertions (-10) 7 = 70 ∧
    effectiveMaxInsertions 0 7 = INVALID_IND ∧
    effectiveMaxInsertions 5 7 = 5 :=
  ⟨((insertion_cap_derivation (-10) 7).1 (by norm_num)).trans (by decide),
   (insertion_cap_derivation 0 7).2.1 rfl,
   ((insertion_cap_derivation 5 7).2.2.1 (by norm_num)).trans (by decide)⟩

/-- Claim C3: each row of the vertex interpolation matrix has at most 3
non-zero entries; the row sums to 1 exactly (hence within 1e-9); and every
entry is a strictly positive barycentric weight of the intrinsic vertex's
normalized Surface Point against a vertex of the containing input face. -/
theorem interp_row_spec (M : MeshConn) (vertexIndices : Nat → Nat) (iV : Nat)
    (p : SurfacePoint) (hp : p.validCoords) :
    (interpRowTriplets M vertexIndices iV p).length ≤ 3 ∧
    interpRowSum (interpRowTriplets M vertexIndices iV p) = 1 ∧
    |interpRowSum (interpRowTriplets M vertexIndices iV p) - 1|
      ≤ 1 / 1000000000 ∧
    ∀ t ∈ interpRowTriplets M vertexIndices iV p,
      t.1 = iV ∧ ∃ j : Fin 3,
        t.2.1 = vertexIndices (M.faceVerts (p.inSomeFaceData M).1 j) ∧
        t.2.2 = (p.inSomeFaceData M).2 j ∧ 0 < t.2.2 := by
  obtain ⟨hnn, hsum⟩ := inSomeFaceData_valid M p hp
  have hsum1 : interpRowSum (interpRowTriplets M vertexIndices iV p) = 1 :=
    posFilterSum (p.inSomeFaceData M).2
      (fun j => (iV, vertexIndices (M.faceVerts (p.inSomeFaceData M).1 j)))
      hnn hsum
  refine ⟨List.length_filterMap_le _ _, hsum1, by rw [hsum1]; norm_num, ?_⟩
  intro t ht
  simp only [interpRowTriplets, List.mem_filterMap] at ht
  obtain ⟨j, hj, hjt⟩ := ht
  by_cases hpos : 0 < (p.inSomeFaceData M).2 j
  · rw [if_pos hpos] at hjt
    obtain rfl := Option.some.inj hjt
    exact ⟨rfl, j, rfl, rfl, hpos⟩
  · rw [if_neg hpos] at hjt
    exact absurd hjt (by simp)

/-- Witness for claim C3 at a concrete face-type vertex location. -/
theorem interp_row_spec_witness :
    (interpRowTriplets meshConnEx id 4 (.face 1 faceCoordsEx)).length ≤ 3 ∧
    interpRowSum (interpRowTriplets meshConnEx id 4 (.face 1 faceCoordsEx))
      = 1 :=
  ⟨(interp_row_spec meshConnEx id 4 (.face 1 faceCoordsEx)
      faceCoordsEx_valid).1,
   (interp_row_spec meshConnEx id 4 (.face 1 faceCoordsEx)
      faceCoordsEx_valid).2.1⟩

/-- Claim C4: for every valid Surface Point, the representative chosen by
`inSomeFace` again satisfies the invariant (coordinates non-negative,
summing to 1, hence within 1e-10 of 1), and whenever an all-positive Face
representative exists (the point is a Face point with all-positive
coordinates), `inSomeFace` returns exactly such a representative. -/
theorem surfacePoint_invariant (M : MeshConn) (p : SurfacePoint)
    (hp : p.validCoords) :
    (p.inSomeFace M).validCoords ∧
    |((p.inSomeFaceData M).2 0 + (p.inSomeFaceData M).2 1 +
      (p.inSomeFaceData M).2 2) - 1| ≤ 1 / 10000000000 ∧
    (p.allPosFace → p.inSomeFace M = p ∧ (p.inSomeFace M).allPosFace) := by
  obtain ⟨hnn, hsum⟩ := inSomeFaceData_valid M p hp
  refine ⟨⟨hnn, hsum⟩, by rw [hsum]; norm_num, ?_⟩
  cases p with
  | vertex v => exact fun h => h.elim
  | edge e t => exact fun h => h.elim
  | face f c => exact fun h => ⟨rfl, h⟩

/-- Witness for claim C4 at a concrete all-positive Face point. -/
theorem surfacePoint_invariant_witness :
    |(((SurfacePoint.face 1 faceCoordsEx).inSomeFaceData meshConnEx).2 0 +
      ((SurfacePoint.face 1 faceCoordsEx).inSomeFaceData meshConnEx).2 1 +
      ((SurfacePoint.face 1 faceCoordsEx).inSomeFaceData meshConnEx).2 2) - 1|
        ≤ 1 / 10000000000 ∧
    (SurfacePoint.face 1 faceCoordsEx).inSomeFace meshConnEx =
      SurfacePoint.face 1 faceCoordsEx :=
  ⟨(surfacePoint_invariant meshConnEx (.face 1 faceCoordsEx)
      faceCoordsEx_valid).2.1,
   ((surfacePoint_invariant meshConnEx (.face 1 faceCoordsEx)
      faceCoordsEx_valid).2.2 faceCoordsEx_allPos).1⟩

end IntrinsicDemo
